import Mathlib

/-!
Verification of the single-pending-request broker of the seamless-agent
extension (`src/tools.ts`, `src/localization.ts`, `src/webviewProvider.ts`,
and the webview script bundled by `esbuild.js`).

The stateful `AgentInteractionProvider` is embedded as a pure state machine:
its mutable fields become a `ProviderState` record, each method becomes a
function from state to state, and a promise resolver stored in the pending
slot is represented by the numeric identity of the suspended caller, so a
"resolution" is the pair (caller, outcome) a step delivers.  Host-side UI
effects that do not touch broker state (posting `showQuestion`/`clear`
messages to the webview, revealing the panel, the information notification)
are fire-and-forget in the source and are not part of the state.
-/

/-- Embeds `UserResponseResult` from `webviewProvider.ts`. -/
structure UserResponseResult where
  responded : Bool
  response : String
deriving DecidableEq, Repr

/-- Embeds the `FromWebviewMessage` union type of `webviewProvider.ts`. -/
inductive FromWebviewMessage where
  | submit (response : String)
  | cancel
deriving DecidableEq, Repr

/-- The mutable fields of `AgentInteractionProvider`:
`hasView` is whether `this._view` is set (it starts unset and the source
never assigns `undefined` back to it); `pending` is `this._pendingRequest`,
holding the identity of the suspended caller whose resolver is stored
(`none` = `null`); `badge` is the badge value last written through
`_setBadge` on the view (`none` = `undefined`, i.e. no badge). -/
structure ProviderState where
  hasView : Bool
  pending : Option Nat
  badge : Option Nat
deriving DecidableEq, Repr

/-- The provider is constructed with no view and no pending request. -/
def initialState : ProviderState :=
  { hasView := false, pending := none, badge := none }

/-- The busy outcome returned by `waitForUserResponse` when the slot is
occupied. -/
def busyResponse : UserResponseResult :=
  { responded := false, response := "Another request is already pending." }

/-- The surface-unavailable sentinel outcome. -/
def unavailableResponse : UserResponseResult :=
  { responded := false, response := "Agent Console view is not available." }

/-- The outcome synthesized by the `onDidDispose` handler. -/
def viewClosedResponse : UserResponseResult :=
  { responded := false, response := "View was closed" }

/-- Embeds `_setBadge`: writes the badge only when a view is set; a count of
`0` writes `undefined` (here `none`). -/
def setBadge (s : ProviderState) (count : Nat) : ProviderState :=
  if s.hasView then
    { s with badge := if count > 0 then some count else none }
  else s

/-- Embeds `_resolvePendingRequest`: when a request is pending, invoke its
resolver with `result` (the delivered pair in the second component), null
out the slot and clear the badge; otherwise do nothing. -/
def resolvePendingRequest (s : ProviderState) (result : UserResponseResult) :
    ProviderState × List (Nat × UserResponseResult) :=
  match s.pending with
  | some caller => (setBadge { s with pending := none } 0, [(caller, result)])
  | none => (s, [])

/-- Embeds `_handleWebviewMessage` for the two message kinds. -/
def handleWebviewMessage (s : ProviderState) (m : FromWebviewMessage) :
    ProviderState × List (Nat × UserResponseResult) :=
  match m with
  | .submit r => resolvePendingRequest s { responded := true, response := r }
  | .cancel => resolvePendingRequest s { responded := false, response := "" }

/-- Embeds `waitForUserResponse` for a caller identified by `caller`.
The second component is the immediately returned outcome; `none` means the
call suspended after installing the pending request, pushing the question
to the webview (fire-and-forget, not broker state), setting the badge to 1
and revealing the panel. -/
def waitForUserResponse (s : ProviderState) (caller : Nat) :
    ProviderState × Option UserResponseResult :=
  if s.pending.isSome then
    (s, some busyResponse)
  else if !s.hasView then
    (s, some unavailableResponse)
  else
    (setBadge { s with pending := some caller } 1, none)

/-- Embeds `resolveWebviewView`: stores the view handle (and wires up the
message and disposal handlers).  It does not touch the pending slot and
writes no badge. -/
def resolveWebviewView (s : ProviderState) : ProviderState :=
  { s with hasView := true }

/-- Embeds the `onDidDispose` handler: it only resolves any pending request
with the view-closed outcome; notably it does not clear `this._view`. -/
def disposeView (s : ProviderState) : ProviderState × List (Nat × UserResponseResult) :=
  resolvePendingRequest s { responded := false, response := "View was closed" }

/-- The events that drive the provider. -/
inductive BrokerEvent where
  | resolveView
  | dispose
  | submitMsg (response : String)
  | cancelMsg
  | ask (caller : Nat)
deriving DecidableEq, Repr

/-- One event applied to the provider state. -/
def step (s : ProviderState) : BrokerEvent → ProviderState
  | .resolveView => resolveWebviewView s
  | .dispose => (disposeView s).1
  | .submitMsg r => (handleWebviewMessage s (.submit r)).1
  | .cancelMsg => (handleWebviewMessage s .cancel).1
  | .ask c => (waitForUserResponse s c).1

/-- The provider state after a sequence of events. -/
def run (s : ProviderState) (es : List BrokerEvent) : ProviderState :=
  es.foldl step s

/-- The whitespace class trimmed by JavaScript `String.prototype.trim`. -/
def isJsSpace (c : Char) : Bool :=
  c == ' ' || c == '\t' || c == '\n' || c == '\r' || c == '\x0b' || c == '\x0c' ||
  c == '\u00a0' || c == '\ufeff' || c == '\u1680' ||
  c == '\u2000' || c == '\u2001' || c == '\u2002' || c == '\u2003' ||
  c == '\u2004' || c == '\u2005' || c == '\u2006' || c == '\u2007' ||
  c == '\u2008' || c == '\u2009' || c == '\u200a' ||
  c == '\u2028' || c == '\u2029' || c == '\u202f' || c == '\u205f' || c == '\u3000'

/-- JavaScript `s.trim()`: drop the whitespace prefix and suffix. -/
def jsTrim (s : String) : String :=
  String.mk (((s.toList.dropWhile isJsSpace).reverse.dropWhile isJsSpace).reverse)

/-- JavaScript `a || b` on strings: the empty string is falsy. -/
def jsOr (a b : String) : String :=
  if a = "" then b else a

/-- Embeds `handleSubmit` of the webview script (`src/webview/main.ts`,
bundled by `esbuild.js`): the posted `submit` payload is
`responseInput?.value.trim() || ''` for textarea content `value`. -/
def handleSubmitPayload (value : String) : String :=
  jsOr (jsTrim value) ""

/-- Embeds `askViaVSCode`.  `selection` is what `showWarningMessage`
resolved with (the pressed button, or `none` on dismissal), `entry` what
`showInputBox` resolved with (`none` on dismissal).  The second component
records whether the input box was opened at all. -/
def askViaVSCode (buttonText : String) (selection : Option String)
    (entry : Option String) : UserResponseResult × Bool :=
  if selection ≠ some buttonText then
    ({ responded := false, response := "" }, false)
  else
    match entry with
    | none => ({ responded := false, response := "" }, true)
    | some response =>
        ({ responded := decide (0 < (jsTrim response).length), response := response }, true)

/-- Embeds `askViaWebview` as a function of the broker's outcome: when the
outcome is the surface-unavailable sentinel, run the fallback prompt and
return its outcome; otherwise return the broker outcome unchanged.  The
second component records whether the fallback was invoked. -/
def askViaWebview (broker : UserResponseResult) (buttonText : String)
    (selection entry : Option String) : UserResponseResult × Bool :=
  if !broker.responded && broker.response == "Agent Console view is not available." then
    ((askViaVSCode buttonText selection entry).1, true)
  else
    (broker, false)

/-- ECMAScript GetSubstitution for a string replacement and a string search
pattern (so there are no capture groups): in the replacement, a dollar sign
followed by a dollar sign yields a literal dollar, followed by an ampersand
yields the matched substring, followed by the character 0x60 yields the
part of the subject before the match, followed by the character 0x27 yields
the part after the match; any other dollar (including digit forms, which
would refer to captures that do not exist here) is kept literally. -/
def getSubstitution (matched before after : List Char) : List Char → List Char
  | [] => []
  | c :: rest =>
      if c = '$' then
        match rest with
        | [] => ['$']
        | d :: rest2 =>
            if d = '$' then '$' :: getSubstitution matched before after rest2
            else if d = '&' then matched ++ getSubstitution matched before after rest2
            else if d = Char.ofNat 96 then before ++ getSubstitution matched before after rest2
            else if d = Char.ofNat 39 then after ++ getSubstitution matched before after rest2
            else c :: getSubstitution matched before after (d :: rest2)
      else c :: getSubstitution matched before after rest

/-- The scan of `String.prototype.replace` with a string pattern, on
character lists: `revBefore` holds (reversed) the subject characters
already passed over, so the first occurrence of `pat` is replaced by the
GetSubstitution expansion of `repl`; an empty pattern matches at the
start. -/
def listReplaceFirstAux (pat repl : List Char) (revBefore : List Char) :
    List Char → List Char
  | [] =>
      if pat.isPrefixOf ([] : List Char) then
        getSubstitution pat revBefore.reverse [] repl
      else []
  | c :: rest =>
      if pat.isPrefixOf (c :: rest) then
        getSubstitution pat revBefore.reverse ((c :: rest).drop pat.length) repl ++
          (c :: rest).drop pat.length
      else c :: listReplaceFirstAux pat repl (c :: revBefore) rest

/-- JavaScript `String.prototype.replace` with a plain-string pattern, on
character lists: replace the first occurrence of `pat` by the
GetSubstitution expansion of `repl` (the matched substring is `pat` itself,
as a string pattern matches literally). -/
def listReplaceFirst (pat repl : List Char) (s : List Char) : List Char :=
  listReplaceFirstAux pat repl [] s

/-- `String.prototype.replace` with a plain-string pattern and replacement. -/
def jsReplaceFirst (s pat repl : String) : String :=
  String.mk (listReplaceFirst pat.toList repl.toList s.toList)

/-- The positional placeholder written into localization bundle entries. -/
def placeholder (i : Nat) : String :=
  "\x7b" ++ toString i ++ "\x7d"

/-- The message selection of `localize` in `localization.ts`:
`let message = bundle[key] || key`, with the bundle (a JSON object)
embedded as a partial map from keys to strings and the empty string being
falsy. -/
def localizeMessage (bundle : String → Option String) (key : String) : String :=
  match bundle key with
  | some v => if v = "" then key else v
  | none => key

/-- Embeds `localize` of `localization.ts`, with the arguments already in
string form (`String(arg)`): the message selection above followed by
`args.forEach((arg, index) => message = message.replace(placeholder, arg))`. -/
def localize (bundle : String → Option String) (key : String)
    (args : List String) : String :=
  args.enum.foldl (fun m p => jsReplaceFirst m (placeholder p.1) p.2)
    (localizeMessage bundle key)

/-- Indexed placeholder substitution, stated as a plain recursion: for each
argument in order, replace the first occurrence of its placeholder. -/
def substFrom (message : String) (i : Nat) : List String → String
  | [] => message
  | a :: rest => substFrom (jsReplaceFirst message (placeholder i) a) (i + 1) rest

/-- Substitute `args` into `message` starting at index 0. -/
def substitutePlaceholders (message : String) (args : List String) : String :=
  substFrom message 0 args

/-- Whether `pat` occurs as a contiguous run inside `s`. -/
def occursIn (pat : List Char) : List Char → Bool
  | [] => pat.isPrefixOf ([] : List Char)
  | c :: rest => pat.isPrefixOf (c :: rest) || occursIn pat rest


/-- C1: the spec says a call made when no Response Surface is attached —
never resolved, or torn down without being re-resolved — returns the
surface-unavailable sentinel immediately and never suspends.  The code
violates this: `onDidDispose` does not clear the stored view handle, so in
the state reached by resolving the view and then disposing it, a
`waitForUserResponse` call does not return the sentinel (or anything at
all) immediately; it installs a pending request and suspends. -/
theorem ask_after_dispose_installs_pending :
    (run initialState [.resolveView, .dispose]).hasView = true ∧
    (run initialState [.resolveView, .dispose]).pending = none ∧
    (waitForUserResponse (run initialState [.resolveView, .dispose]) 0).2 = none ∧
    (waitForUserResponse (run initialState [.resolveView, .dispose]) 0).1.pending = some 0 := by
  decide

/-- C2: a `waitForUserResponse` call made while the pending slot is occupied
returns the busy outcome immediately with the broker state completely
unchanged, and the original pending request still resolves to its own
caller with whatever outcome later arrives. -/
theorem ask_busy_rejects_without_mutation (s : ProviderState) (c caller : Nat)
    (h : s.pending = some c) :
    waitForUserResponse s caller = (s, some busyResponse) ∧
    ∀ r, (resolvePendingRequest s r).2 = [(c, r)] := by
  refine ⟨?_, ?_⟩
  · simp [waitForUserResponse, h]
  · intro r
    simp [resolvePendingRequest, h]

theorem ask_busy_rejects_without_mutation_witness :
    waitForUserResponse { hasView := true, pending := some 5, badge := some 1 } 7 =
      ({ hasView := true, pending := some 5, badge := some 1 }, some busyResponse) ∧
    (resolvePendingRequest { hasView := true, pending := some 5, badge := some 1 }
        { responded := true, response := "ok" }).2 =
      [(5, { responded := true, response := "ok" })] :=
  ⟨(ask_busy_rejects_without_mutation _ 5 7 rfl).1,
   (ask_busy_rejects_without_mutation _ 5 7 rfl).2 _⟩

/-- C4: resolution happens exactly once.  Disposal while a request is
pending delivers the view-closed outcome to that caller exactly once and
empties the slot, and a second disposal is a no-op; once the slot is empty,
every further submit, cancel or disposal event changes nothing and delivers
nothing. -/
theorem pending_resolution_exactly_once (s : ProviderState) (c : Nat) :
    (s.pending = some c →
      (disposeView s).2 = [(c, viewClosedResponse)] ∧
      (disposeView s).1.pending = none ∧
      disposeView (disposeView s).1 = ((disposeView s).1, [])) ∧
    (s.pending = none →
      disposeView s = (s, []) ∧ ∀ m, handleWebviewMessage s m = (s, [])) := by
  constructor
  · intro h
    by_cases hv : s.hasView <;>
      simp [disposeView, resolvePendingRequest, h, setBadge, hv, viewClosedResponse]
  · intro h
    refine ⟨?_, ?_⟩
    · simp [disposeView, resolvePendingRequest, h]
    · intro m
      cases m <;> simp [handleWebviewMessage, resolvePendingRequest, h]

theorem pending_resolution_exactly_once_witness :
    (disposeView { hasView := true, pending := some 3, badge := some 1 }).2 =
      [(3, viewClosedResponse)] ∧
    disposeView { hasView := true, pending := none, badge := none } =
      ({ hasView := true, pending := none, badge := none }, []) :=
  ⟨((pending_resolution_exactly_once _ 3).1 rfl).1,
   ((pending_resolution_exactly_once { hasView := true, pending := none, badge := none } 3).2
      rfl).1⟩

/-- C6: while a request is pending, a submit message with payload `r`
resolves the waiting caller with `{responded := true, response := r}` (the
payload unaltered), and a cancel message resolves it with
`{responded := false, response := ""}`. -/
theorem submit_and_cancel_outcomes (s : ProviderState) (c : Nat) (r : String)
    (h : s.pending = some c) :
    (handleWebviewMessage s (.submit r)).2 =
      [(c, { responded := true, response := r })] ∧
    (handleWebviewMessage s .cancel).2 =
      [(c, { responded := false, response := "" })] := by
  constructor <;> simp [handleWebviewMessage, resolvePendingRequest, h]

theorem submit_and_cancel_outcomes_witness :
    (handleWebviewMessage { hasView := true, pending := some 0, badge := some 1 }
        (.submit ("hi"))).2 = [(0, { responded := true, response := "hi" })] ∧
    (handleWebviewMessage { hasView := true, pending := some 0, badge := some 1 }
        .cancel).2 = [(0, { responded := false, response := "" })] :=
  ⟨(submit_and_cancel_outcomes _ 0 ("hi") rfl).1,
   (submit_and_cancel_outcomes _ 0 ("hi") rfl).2⟩

/-- The broker invariant: a pending request implies the view handle is set
(the slot is only ever occupied behind the view check), and the badge reads
1 exactly while a request is pending and is cleared otherwise. -/
def brokerInv (s : ProviderState) : Prop :=
  (s.pending.isSome → s.hasView = true) ∧
  s.badge = (if s.pending.isSome then some 1 else none)

theorem brokerInv_initial : brokerInv initialState := by
  simp [brokerInv, initialState]

theorem brokerInv_resolvePendingRequest (s : ProviderState) (r : UserResponseResult)
    (h : brokerInv s) : brokerInv (resolvePendingRequest s r).1 := by
  obtain ⟨hview, hbadge⟩ := h
  cases hp : s.pending with
  | none =>
      simp only [resolvePendingRequest, hp]
      exact ⟨hview, hbadge⟩
  | some c =>
      have hv : s.hasView = true := hview (by simp [hp])
      simp [resolvePendingRequest, hp, setBadge, hv, brokerInv]

theorem brokerInv_step (s : ProviderState) (e : BrokerEvent) (h : brokerInv s) :
    brokerInv (step s e) := by
  cases e with
  | resolveView =>
      obtain ⟨hview, hbadge⟩ := h
      exact ⟨fun _ => rfl, hbadge⟩
  | dispose => exact brokerInv_resolvePendingRequest s _ h
  | submitMsg r => exact brokerInv_resolvePendingRequest s _ h
  | cancelMsg => exact brokerInv_resolvePendingRequest s _ h
  | ask c =>
      obtain ⟨hview, hbadge⟩ := h
      by_cases hp : s.pending.isSome
      · simp only [step, waitForUserResponse, hp, if_pos]
        exact ⟨hview, hbadge⟩
      · by_cases hv : s.hasView
        · simp [step, waitForUserResponse, hp, hv, setBadge, brokerInv]
        · simp only [step, waitForUserResponse, hp]
          simp only [Bool.not_eq_true] at hv
          simp [hv]
          exact ⟨hview, hbadge⟩

theorem brokerInv_run (es : List BrokerEvent) (s : ProviderState) (h : brokerInv s) :
    brokerInv (run s es) := by
  induction es generalizing s with
  | nil => simpa [run] using h
  | cons e rest ih =>
      have hstep := brokerInv_step s e h
      simpa [run] using ih (step s e) hstep

/-- C5: in every state reachable by a sequence of broker operations, the
badge reads 1 exactly while the single pending slot is occupied and is
cleared otherwise; and after any resolution the slot is empty again, so a
subsequent ask takes the suspend path and installs the new caller as the
pending request. -/
theorem badge_tracks_pending_and_slot_reusable (es : List BrokerEvent)
    (s : ProviderState) (hs : s = run initialState es) :
    s.badge = (if s.pending.isSome then some 1 else none) ∧
    (∀ c, s.pending = some c → s.hasView = true) ∧
    (∀ c m caller, s.pending = some c →
      (handleWebviewMessage s m).1.pending = none ∧
      (waitForUserResponse (handleWebviewMessage s m).1 caller).2 = none ∧
      (waitForUserResponse (handleWebviewMessage s m).1 caller).1.pending = some caller) := by
  have hinv : brokerInv s := hs ▸ brokerInv_run es initialState brokerInv_initial
  obtain ⟨hview, hbadge⟩ := hinv
  refine ⟨hbadge, fun c hc => hview (by simp [hc]), ?_⟩
  intro c m caller hc
  have hv : s.hasView = true := hview (by simp [hc])
  have hres : (handleWebviewMessage s m).1 = setBadge { s with pending := none } 0 := by
    cases m <;> simp [handleWebviewMessage, resolvePendingRequest, hc]
  rw [hres]
  simp [setBadge, hv, waitForUserResponse]

theorem badge_tracks_pending_and_slot_reusable_witness :
    (handleWebviewMessage (run initialState [.resolveView, .ask 0]) .cancel).1.pending = none ∧
    (waitForUserResponse
        (handleWebviewMessage (run initialState [.resolveView, .ask 0]) .cancel).1 1).1.pending =
      some 1 := by
  have h := (badge_tracks_pending_and_slot_reusable [.resolveView, .ask 0] _ rfl).2.2
      0 .cancel 1 (by decide)
  exact ⟨h.1, h.2.2⟩

/-- C8: the fallback prompt returns `{false, ""}` without ever opening the
input box when the warning is dismissed without pressing the action button;
returns `{false, ""}` when the input box is dismissed; and on submitted
text `t` returns `{trim(t).length > 0, t}` with `t` untrimmed — so an empty
submission yields `{false, ""}`, a whitespace-only submission yields
`responded = false`, and `"42"` yields `{true, "42"}`. -/
theorem fallback_prompt_outcomes (buttonText t : String)
    (selection entry : Option String) :
    (selection ≠ some buttonText →
      askViaVSCode buttonText selection entry =
        ({ responded := false, response := "" }, false)) ∧
    askViaVSCode buttonText (some buttonText) none =
      ({ responded := false, response := "" }, true) ∧
    askViaVSCode buttonText (some buttonText) (some t) =
      ({ responded := decide (0 < (jsTrim t).length), response := t }, true) ∧
    askViaVSCode buttonText (some buttonText) (some ("")) =
      ({ responded := false, response := "" }, true) ∧
    askViaVSCode buttonText (some buttonText) (some ("42")) =
      ({ responded := true, response := "42" }, true) ∧
    (jsTrim t = "" →
      askViaVSCode buttonText (some buttonText) (some t) =
        ({ responded := false, response := t }, true)) := by
  refine ⟨?_, ?_, ?_, ?_, ?_, ?_⟩
  · intro hsel
    simp [askViaVSCode, hsel]
  · simp [askViaVSCode]
  · simp [askViaVSCode]
  · simp [askViaVSCode]
    decide
  · simp [askViaVSCode]
    decide
  · intro htrim
    simp [askViaVSCode, htrim]

theorem fallback_prompt_outcomes_witness :
    askViaVSCode ("Respond") none none = ({ responded := false, response := "" }, false) ∧
    askViaVSCode ("Respond") (some ("Respond")) (some ("  ")) =
      ({ responded := false, response := "  " }, true) :=
  ⟨(fallback_prompt_outcomes ("Respond") ("  ") none none).1 (by simp),
   (fallback_prompt_outcomes ("Respond") ("  ") (some ("Respond")) (some ("  "))).2.2.2.2.2
     (by decide)⟩

theorem askViaVSCode_fst_ne_unavailable (buttonText : String)
    (selection entry : Option String) :
    (askViaVSCode buttonText selection entry).1 ≠ unavailableResponse := by
  unfold askViaVSCode
  by_cases hsel : selection ≠ some buttonText
  · simp [hsel, unavailableResponse]
  · rw [if_neg hsel]
    cases entry with
    | none => simp [unavailableResponse]
    | some t =>
        intro hcontra
        simp only [unavailableResponse, UserResponseResult.mk.injEq] at hcontra
        obtain ⟨h1, h2⟩ := hcontra
        subst h2
        revert h1
        decide

/-- C3: the tool adapter runs the fallback prompt exactly when the broker
outcome is the surface-unavailable sentinel and then returns the fallback's
outcome; every other broker outcome is returned to the agent unchanged; and
the sentinel outcome itself never reaches the agent. -/
theorem fallback_invoked_exactly_on_sentinel (broker : UserResponseResult)
    (buttonText : String) (selection entry : Option String) :
    ((askViaWebview broker buttonText selection entry).2 = true ↔
      broker = unavailableResponse) ∧
    (broker ≠ unavailableResponse →
      askViaWebview broker buttonText selection entry = (broker, false)) ∧
    (broker = unavailableResponse →
      (askViaWebview broker buttonText selection entry).1 =
        (askViaVSCode buttonText selection entry).1) ∧
    (askViaWebview broker buttonText selection entry).1 ≠ unavailableResponse := by
  have hcond : (!broker.responded &&
      broker.response == "Agent Console view is not available.") = true ↔
      broker = unavailableResponse := by
    cases broker with
    | mk responded response =>
        simp [unavailableResponse, UserResponseResult.mk.injEq, Bool.and_eq_true,
          Bool.not_eq_true']
  by_cases h : broker = unavailableResponse
  · have hc : (!broker.responded &&
        broker.response == "Agent Console view is not available.") = true := hcond.mpr h
    refine ⟨?_, ?_, ?_, ?_⟩
    · simp only [askViaWebview, hc, if_true]
      simp [h]
    · intro hne
      exact absurd h hne
    · intro _
      simp [askViaWebview, hc]
    · simp only [askViaWebview, hc, if_true]
      exact askViaVSCode_fst_ne_unavailable buttonText selection entry
  · have hc : (!broker.responded &&
        broker.response == "Agent Console view is not available.") = false := by
      cases hb : (!broker.responded &&
          broker.response == "Agent Console view is not available.")
      · rfl
      · exact absurd (hcond.mp hb) h
    refine ⟨?_, ?_, ?_, ?_⟩
    · simp [askViaWebview, hc, h]
    · intro _
      simp [askViaWebview, hc]
    · intro hcontra
      exact absurd hcontra h
    · simp only [askViaWebview, hc, Bool.false_eq_true, if_false]
      exact h

theorem fallback_invoked_exactly_on_sentinel_witness :
    askViaWebview busyResponse ("Respond") none none = (busyResponse, false) ∧
    (askViaWebview unavailableResponse ("Respond") (some ("Respond")) (some ("42"))).1 =
      (askViaVSCode ("Respond") (some ("Respond")) (some ("42"))).1 :=
  ⟨(fallback_invoked_exactly_on_sentinel busyResponse ("Respond") none none).2.1 (by decide),
   (fallback_invoked_exactly_on_sentinel unavailableResponse ("Respond") (some ("Respond"))
      (some ("42"))).2.2.1 rfl⟩

theorem handleSubmitPayload_eq (v : String) : handleSubmitPayload v = jsTrim v := by
  by_cases h : jsTrim v = "" <;> simp [handleSubmitPayload, jsOr, h]

/-- C7 counterexample: a UI-originated submission of a whitespace-only
textarea posts the payload `""` and the broker delivers
`{responded := true, response := ""}` to the waiting caller, so a
surface-path outcome with `responded = true` can have an empty response. -/
theorem empty_submit_yields_responded_true :
    handleSubmitPayload ("   ") = "" ∧
    (handleWebviewMessage { hasView := true, pending := some 0, badge := some 1 }
        (.submit (handleSubmitPayload ("   ")))).2 =
      [(0, { responded := true, response := "" })] := by
  decide

/-- C7 (amended): every surface-path submission delivers
`responded = true` with the response equal to the trimmed textarea content
exactly as the webview posted it — which may be the empty string when the
entry was empty or whitespace-only. -/
theorem surface_submit_delivers_trimmed_text (s : ProviderState) (c : Nat) (v : String)
    (h : s.pending = some c) :
    (handleWebviewMessage s (.submit (handleSubmitPayload v))).2 =
      [(c, { responded := true, response := jsTrim v })] := by
  rw [handleSubmitPayload_eq]
  simp [handleWebviewMessage, resolvePendingRequest, h]

theorem surface_submit_delivers_trimmed_text_witness :
    (handleWebviewMessage { hasView := true, pending := some 0, badge := some 1 }
        (.submit (handleSubmitPayload ("  hi  ")))).2 =
      [(0, { responded := true, response := jsTrim ("  hi  ") })] :=
  surface_submit_delivers_trimmed_text _ 0 ("  hi  ") rfl

/-- C10: the payload the webview posts on submit equals the textarea
content with leading and trailing whitespace removed (the `|| ''` in the
source adds nothing beyond the trim), and it is the empty string for an
empty or whitespace-only entry. -/
theorem webview_submit_posts_trimmed_payload (v : String) :
    handleSubmitPayload v = jsTrim v ∧
    handleSubmitPayload ("   ") = "" ∧
    handleSubmitPayload ("  hi  ") = "hi" :=
  ⟨handleSubmitPayload_eq v, by decide, by decide⟩

theorem listReplaceFirstAux_of_not_occurs (pat repl : List Char) (hpat : pat ≠ [])
    (s : List Char) : ∀ acc, occursIn pat s = false →
    listReplaceFirstAux pat repl acc s = s := by
  induction s with
  | nil =>
      intro acc _
      cases pat with
      | nil => exact absurd rfl hpat
      | cons p ps => rfl
  | cons c rest ih =>
      intro acc h
      simp only [occursIn, Bool.or_eq_false_iff] at h
      simp [listReplaceFirstAux, h.1, ih (c :: acc) h.2]

theorem listReplaceFirst_of_not_occurs (pat repl : List Char) (s : List Char)
    (hpat : pat ≠ []) (h : occursIn pat s = false) :
    listReplaceFirst pat repl s = s :=
  listReplaceFirstAux_of_not_occurs pat repl hpat s [] h

theorem placeholder_toList_ne_nil (i : Nat) : (placeholder i).toList ≠ [] := by
  intro hnil
  have hlen : (placeholder i).toList.length = 0 := by rw [hnil]; rfl
  have : (placeholder i).toList.length =
      2 + (toString i).toList.length := by
    show ("\x7b" ++ toString i ++ "\x7d").data.length = _
    rw [String.data_append, String.data_append]
    simp [String.data]
    omega
  omega

theorem jsReplaceFirst_of_not_occurs (s pat repl : String)
    (hpat : pat.toList ≠ []) (h : occursIn pat.toList s.toList = false) :
    jsReplaceFirst s pat repl = s := by
  unfold jsReplaceFirst
  rw [listReplaceFirst_of_not_occurs pat.toList repl.toList s.toList hpat h]
  cases s
  rfl

theorem substFrom_of_no_occurs (args : List String) (i : Nat) (m : String)
    (h : ∀ j, i ≤ j → j < i + args.length →
      occursIn (placeholder j).toList m.toList = false) :
    substFrom m i args = m := by
  induction args generalizing i with
  | nil => rfl
  | cons a rest ih =>
      have h0 : occursIn (placeholder i).toList m.toList = false :=
        h i le_rfl (by simp)
      simp only [substFrom]
      rw [jsReplaceFirst_of_not_occurs m (placeholder i) a
        (placeholder_toList_ne_nil i) h0]
      exact ih (i + 1) (fun j hj1 hj2 =>
        h j (by omega) (by simp only [List.length_cons]; omega))

theorem foldl_enumFrom_eq_substFrom (args : List String) (i : Nat) (m : String) :
    (List.enumFrom i args).foldl
      (fun acc p => jsReplaceFirst acc (placeholder p.1) p.2) m = substFrom m i args := by
  induction args generalizing i m with
  | nil => rfl
  | cons a rest ih =>
      simp only [List.enumFrom, List.foldl_cons, substFrom]
      exact ih (i + 1) _

/-- C9 counterexample: with an empty bundle, `localize` applied to the key
`"\x7b0\x7d"` and the single argument `"hi"` returns `"hi"`, not the key
itself — when the key has no bundle entry, the placeholder substitution is
applied to the fallback key; and with a bundle mapping the key `"k"` to the
empty entry `""` and no arguments, `localize` returns the key `"k"`, not
the bundle entry — the empty entry is falsy in `bundle[key] || key`.  Both
refute the claim as stated at explicit inputs. -/
theorem localize_missing_key_substitutes_into_key :
    (localize (fun _ => none) "\x7b0\x7d" ["hi"] = "hi" ∧
      "hi" ≠ "\x7b0\x7d") ∧
    (localize (fun k => if k = "k" then some ("") else none) "k" [] = "k" ∧
      "k" ≠ "") := by
  decide

/-- C9 (amended): `localize` selects the message — the bundle entry when it
is present and non-empty, the key itself otherwise (the empty entry is
falsy in `bundle[key] || key`, so it also falls back to the key) — and
then, for each index `i` in increasing order, replaces the first occurrence
of the placeholder in the evolving message by `args[i]` (expanded per the
dollar escapes of JavaScript replace); consequently, when the key has no
bundle entry or an empty one and no placeholder for a supplied index occurs
in the key, the key is returned unchanged. -/
theorem localize_message_selection_and_substitution (bundle : String → Option String)
    (key : String) (args : List String) :
    (∀ v, bundle key = some v → v ≠ "" →
      localize bundle key args = substitutePlaceholders v args) ∧
    (bundle key = none ∨ bundle key = some ("") →
      localize bundle key args = substitutePlaceholders key args) ∧
    (bundle key = none ∨ bundle key = some ("") →
      (∀ j, j < args.length → occursIn (placeholder j).toList key.toList = false) →
      localize bundle key args = key) := by
  have hmain : localize bundle key args =
      substFrom (localizeMessage bundle key) 0 args := by
    unfold localize
    show (List.enumFrom 0 args).foldl _ _ = _
    exact foldl_enumFrom_eq_substFrom args 0 (localizeMessage bundle key)
  have hkey : bundle key = none ∨ bundle key = some ("") →
      localizeMessage bundle key = key := by
    intro hv
    cases hv with
    | inl hv => simp [localizeMessage, hv]
    | inr hv => simp [localizeMessage, hv]
  refine ⟨?_, ?_, ?_⟩
  · intro v hv hne
    rw [hmain, substitutePlaceholders]
    simp [localizeMessage, hv, hne]
  · intro hv
    rw [hmain, substitutePlaceholders, hkey hv]
  · intro hv hno
    rw [hmain, hkey hv]
    exact substFrom_of_no_occurs args 0 key
      (fun j hj1 hj2 => hno j (by simpa using hj2))

theorem localize_message_selection_and_substitution_witness :
    localize (fun _ => none) "console.title" ["x"] = "console.title" ∧
    localize (fun _ => some ("")) "button.respond" ["x"] = "button.respond" :=
  ⟨(localize_message_selection_and_substitution (fun _ => none) "console.title"
      ["x"]).2.2 (Or.inl rfl) (by decide),
   (localize_message_selection_and_substitution (fun _ => some ("")) "button.respond"
      ["x"]).2.2 (Or.inr rfl) (by decide)⟩

